import Mathlib

/-!
# Verification of the ATS decision-and-dispatch engine

Shallow embedding, in Lean 4, of the core components of the job-application
pipeline: the job-fit scorer (`job_matcher.py`), the ATS classifier
(`ats_detector.py`), the application tracker (`tracker.py`), and the tier-1
dispatcher (`automation/tier1_automation.py`).  Each definition translates the
corresponding Python function; theorems settle the specification's testable
properties against those definitions.

Conventions of the embedding:
* Python `str` is modelled as `List Char` (abbreviated `Str`); Python's
  substring test `a in b` is `occursIn a b`; `str.lower()` is `lowerStr`
  (`Char.toLower` per character, faithful on the ASCII text involved).
* Python floats are modelled as exact rationals `ℚ`; all arithmetic the
  scorer performs (sums, products, divisions, `min`/`max`) is exact.
* Python `set`s of strings are enumerated as duplicate-free lists, so
  `len(s)` is the list length and set iteration is list iteration.
* I/O (console printing, HTTP fetches, SQLite persistence, the browser) is
  modelled by explicit state passing; wall-clock timestamps are threaded as
  opaque string parameters.
-/

/-- Python `str` embedded as a list of characters. -/
abbrev Str := List Char

instance : Coe String Str := ⟨String.data⟩

/-- Auxiliary for the substring test: `leadsWith n h` holds when `n` occurs
at the very start of `h`. -/
def leadsWith : Str → Str → Bool
  | [], _ => true
  | _ :: _, [] => false
  | a :: as, b :: bs => a == b && leadsWith as bs

/-- Python's substring containment `needle in hay` (`str.__contains__`):
true iff `needle` occurs contiguously somewhere in `hay`. -/
def occursIn (needle : Str) : Str → Bool
  | [] => needle.isEmpty
  | b :: bs => leadsWith needle (b :: bs) || occursIn needle bs

/-- Python `str.lower()` (per-character `Char.toLower`). -/
def lowerStr (s : Str) : Str := s.map Char.toLower

theorem occursIn_nil_left (l : Str) : occursIn [] l = true := by
  induction l with
  | nil => rfl
  | cons b bs ih => simp [occursIn, leadsWith]

theorem leadsWith_append (n : Str) :
    ∀ s e : Str, leadsWith n s = true → leadsWith n (s ++ e) = true := by
  induction n with
  | nil => intro s e _; rfl
  | cons a as ih =>
    intro s e h
    cases s with
    | nil => simp [leadsWith] at h
    | cons b bs =>
      simp only [leadsWith, Bool.and_eq_true] at h
      simp only [List.cons_append, leadsWith, Bool.and_eq_true]
      exact ⟨h.1, ih bs e h.2⟩

/-- Appending text at the end of a string preserves every substring
occurrence: the key monotonicity fact behind the scorer's behaviour. -/
theorem occursIn_append_left (n : Str) :
    ∀ h e : Str, occursIn n h = true → occursIn n (h ++ e) = true := by
  intro h
  induction h with
  | nil =>
    intro e hn
    simp only [occursIn, List.isEmpty_iff] at hn
    subst hn
    simpa using occursIn_nil_left e
  | cons b bs ih =>
    intro e hn
    simp only [occursIn, Bool.or_eq_true] at hn
    simp only [List.cons_append, occursIn, Bool.or_eq_true]
    cases hn with
    | inl hl => exact Or.inl (leadsWith_append n (b :: bs) e hl)
    | inr hr => exact Or.inr (ih e hr)

theorem lowerStr_append (a b : Str) :
    lowerStr (a ++ b) = lowerStr a ++ lowerStr b := List.map_append _ a b

/-!
## Data model: postings and candidate profiles (`job_matcher.py`)
-/

/-- A job posting dict as it flows through the pipeline.  The scorer reads the
text fields via `job.get(key, '')`, so a missing text field is embedded as the
empty string; `salary` keeps its optional nature (`job.get('salary')` may be
absent), and `tier` / `match_score` are the fields attached by the classifier
and scorer stages (absent before those stages run). -/
structure Job where
  url : Str
  title : Str
  description : Str
  snippet : Str
  company : Str
  location : Str
  salary : Option Str
  ats : Str
  tier : Option Nat
  match_score : Option ℚ
  deriving DecidableEq

/-- The candidate profile state a `JobMatcher` holds after `load_resume()`
succeeded (or after `_load_fallback_skills()`): `self.skills`,
`self.keywords` and `self.target_roles`. -/
structure Profile where
  skills : List Str
  keywords : List Str
  target_roles : List Str
  deriving DecidableEq

/-- Embedding of `JobMatcher._load_fallback_skills`: the built-in profile substituted when
the resume endpoint cannot be reached.  `keywords` is a copy of `skills`
(`self.keywords = self.skills.copy()`). -/
def fallback_profile : Profile where
  skills :=
    ["python", "sql", "aws", "gcp", "docker", "git", "tensorflow",
     "pytorch", "langchain", "airflow", "dbt", "bigquery", "postgresql",
     "streamlit", "pandas", "numpy", "scikit-learn", "pyspark",
     "data engineering", "machine learning", "etl", "data pipeline",
     "cloud", "api", "rest api", "mlops", "ci/cd", "kubernetes"]
  keywords :=
    ["python", "sql", "aws", "gcp", "docker", "git", "tensorflow",
     "pytorch", "langchain", "airflow", "dbt", "bigquery", "postgresql",
     "streamlit", "pandas", "numpy", "scikit-learn", "pyspark",
     "data engineering", "machine learning", "etl", "data pipeline",
     "cloud", "api", "rest api", "mlops", "ci/cd", "kubernetes"]
  target_roles :=
    ["data engineer", "ml engineer", "data analyst",
     "machine learning engineer", "ai engineer"]

/-!
## The fit scorer (`JobMatcher.score_job` and its sub-scores)
-/

/-- The generic-term set of `_score_title`. -/
def generic_title_terms : List Str := ["data", "engineer", "ml", "machine learning", "ai"]

/-- The seniority-term set of `_score_title`. -/
def seniority_terms : List Str := ["senior", "lead", "staff", "principal"]

/-- The management-penalty term set of `_score_title`. -/
def management_terms : List Str := ["manager", "director", "vp", "executive"]

/-- The `high_value_skills` list of `_score_skills`. -/
def high_value_skills : List Str :=
  ["python", "sql", "aws", "gcp", "airflow", "dbt",
   "tensorflow", "pytorch", "spark", "bigquery"]

/-- The preferred-region terms of `_score_location`. -/
def la_terms : List Str := ["los angeles", "la", "california", "ca"]

/-- The `good_keywords` list of `_score_company`. -/
def company_keywords : List Str := ["tech", "ai", "data", "cloud", "software", "digital", "analytics"]

/-- Embedding of `JobMatcher._score_title` (0–25 nominal; actual maximum 15+5+3 = 23):
+15 on the first matching target role, +5 for a generic term, +3 for a
seniority term, −10 for a management term, floored at 0. -/
def score_title (p : Profile) (title : Str) : ℚ :=
  if title.isEmpty then 0
  else
    let t := lowerStr title
    let base : ℚ :=
      (if p.target_roles.any (fun r => occursIn r t) then 15 else 0)
      + (if generic_title_terms.any (fun w => occursIn w t) then 5 else 0)
      + (if seniority_terms.any (fun w => occursIn w t) then 3 else 0)
      - (if management_terms.any (fun w => occursIn w t) then 10 else 0)
    max base 0

/-- Embedding of `JobMatcher._score_skills` (0–40): `match_ratio × 30` plus
`min(2 × high-value matches, 10)`.  `skill in high_value_skills` is Python
list membership, i.e. string equality. -/
def score_skills (p : Profile) (text : Str) : ℚ :=
  if p.skills.isEmpty then 0
  else
    let matched := p.skills.filter (fun sk => occursIn sk text)
    let base : ℚ := ((matched.length : ℚ) / (p.skills.length : ℚ)) * 30
    let hv := (matched.filter (fun sk => high_value_skills.contains sk)).length
    base + min (2 * (hv : ℚ)) 10

/-- Embedding of `JobMatcher._score_keywords` (0–20): fraction of profile keywords found
in the combined text, scaled by 20. -/
def score_keywords (p : Profile) (text : Str) : ℚ :=
  if p.keywords.isEmpty then 0
  else
    let matched := p.keywords.filter (fun kw => occursIn kw text)
    ((matched.length : ℚ) / (p.keywords.length : ℚ)) * 20

/-- Embedding of `JobMatcher._score_location` (0–5): remote 5, LA-area terms 4,
generic US terms 2, otherwise 0, first matching rule wins. -/
def score_location (location : Str) : ℚ :=
  if location.isEmpty then 0
  else
    let l := lowerStr location
    if occursIn ("remote" : Str) l then 5
    else if la_terms.any (fun c => occursIn c l) then 4
    else if occursIn ("united states" : Str) l || occursIn ("usa" : Str) l then 2
    else 0

/-- Embedding of `JobMatcher._score_company` (0–5): +5 when the company name contains a
positive-signal term. -/
def score_company (company : Str) : ℚ :=
  if company.isEmpty then 0
  else if company_keywords.any (fun kw => occursIn kw (lowerStr company)) then 5
  else 0

/-- Python truthiness of `job.get('salary')`: present and non-empty. -/
def truthy : Option Str → Bool
  | none => false
  | some s => !s.isEmpty

/-- The combined lowercased job text
`' '.join([title, description, snippet, company]).lower()`. -/
def job_text (job : Job) : Str :=
  lowerStr (job.title ++ (" " : Str) ++ job.description ++ (" " : Str)
    ++ job.snippet ++ (" " : Str) ++ job.company)

/-- Embedding of `JobMatcher.score_job`: the aggregate fit score, clamped above at 100
(`min(score, 100)`).  The Python method first reloads the resume when
`self.skills` is empty (`if not self.skills: self.load_resume()`); the
embedding quantifies over the effective profile `p` in force when the
sub-scores run, which covers both the fetched and the fallback profile. -/
def score_job (p : Profile) (job : Job) : ℚ :=
  let text := job_text job
  let s : ℚ :=
    score_title p job.title
    + score_skills p text
    + score_keywords p text
    + score_location job.location
    + (if truthy job.salary then 5 else 0)
    + score_company job.company
  min s 100

/-!
## Range bounds for the sub-scores
-/

theorem score_title_bounds (p : Profile) (t : Str) :
    0 ≤ score_title p t ∧ score_title p t ≤ 23 := by
  unfold score_title
  split
  · norm_num
  · refine ⟨le_max_right _ _, max_le ?_ (by norm_num)⟩
    split_ifs <;> norm_num

theorem score_skills_bounds (p : Profile) (text : Str) :
    0 ≤ score_skills p text ∧ score_skills p text ≤ 40 := by
  unfold score_skills
  split
  · norm_num
  · rename_i hne
    have hpos : 0 < (p.skills.length : ℚ) := by
      have : p.skills ≠ [] := by
        intro h; rw [h] at hne; exact hne rfl
      have := List.length_pos.mpr this
      exact_mod_cast this
    have hfilter : ((p.skills.filter (fun sk => occursIn sk text)).length : ℚ)
        ≤ (p.skills.length : ℚ) := by
      exact_mod_cast List.length_filter_le _ _
    have hfrac0 : 0 ≤ ((p.skills.filter (fun sk => occursIn sk text)).length : ℚ)
        / (p.skills.length : ℚ) := by positivity
    have hfrac1 : ((p.skills.filter (fun sk => occursIn sk text)).length : ℚ)
        / (p.skills.length : ℚ) ≤ 1 := by
      rw [div_le_one hpos]; exact hfilter
    constructor
    · have h1 : (0:ℚ) ≤ ((p.skills.filter (fun sk => occursIn sk text)).length : ℚ)
          / (p.skills.length : ℚ) * 30 := by positivity
      have h2 : (0:ℚ) ≤ min (2 * (((p.skills.filter (fun sk => occursIn sk text)).filter
          (fun sk => high_value_skills.contains sk)).length : ℚ)) 10 := by
        apply le_min (by positivity) (by norm_num)
      linarith
    · have h1 : ((p.skills.filter (fun sk => occursIn sk text)).length : ℚ)
          / (p.skills.length : ℚ) * 30 ≤ 30 := by nlinarith
      have h2 : min (2 * (((p.skills.filter (fun sk => occursIn sk text)).filter
          (fun sk => high_value_skills.contains sk)).length : ℚ)) 10 ≤ 10 :=
        min_le_right _ _
      linarith

theorem score_keywords_bounds (p : Profile) (text : Str) :
    0 ≤ score_keywords p text ∧ score_keywords p text ≤ 20 := by
  unfold score_keywords
  split
  · norm_num
  · rename_i hne
    have hpos : 0 < (p.keywords.length : ℚ) := by
      have : p.keywords ≠ [] := by
        intro h; rw [h] at hne; exact hne rfl
      have := List.length_pos.mpr this
      exact_mod_cast this
    have hfilter : ((p.keywords.filter (fun kw => occursIn kw text)).length : ℚ)
        ≤ (p.keywords.length : ℚ) := by
      exact_mod_cast List.length_filter_le _ _
    have hfrac1 : ((p.keywords.filter (fun kw => occursIn kw text)).length : ℚ)
        / (p.keywords.length : ℚ) ≤ 1 := by
      rw [div_le_one hpos]; exact hfilter
    constructor
    · positivity
    · nlinarith

theorem score_location_bounds (l : Str) :
    0 ≤ score_location l ∧ score_location l ≤ 5 := by
  unfold score_location
  dsimp only
  split_ifs <;> norm_num

theorem score_company_bounds (c : Str) :
    0 ≤ score_company c ∧ score_company c ≤ 5 := by
  unfold score_company
  split_ifs <;> norm_num

/-!
## Monotonicity of the text-dependent sub-scores under appended text
-/

theorem score_skills_mono (p : Profile) (t e : Str) :
    score_skills p t ≤ score_skills p (t ++ e) := by
  by_cases h : p.skills.isEmpty
  · simp [score_skills, h]
  · simp only [score_skills, h, Bool.false_eq_true, if_false]
    have hsub : (p.skills.filter (fun sk => occursIn sk t)).Sublist
        (p.skills.filter (fun sk => occursIn sk (t ++ e))) :=
      List.monotone_filter_right _ (fun a ha => occursIn_append_left a t e ha)
    have hlen : ((p.skills.filter (fun sk => occursIn sk t)).length : ℚ)
        ≤ ((p.skills.filter (fun sk => occursIn sk (t ++ e))).length : ℚ) := by
      exact_mod_cast hsub.length_le
    have hlen2 : (((p.skills.filter (fun sk => occursIn sk t)).filter
          (fun sk => high_value_skills.contains sk)).length : ℚ)
        ≤ (((p.skills.filter (fun sk => occursIn sk (t ++ e))).filter
          (fun sk => high_value_skills.contains sk)).length : ℚ) := by
      exact_mod_cast (hsub.filter _).length_le
    gcongr

theorem score_keywords_mono (p : Profile) (t e : Str) :
    score_keywords p t ≤ score_keywords p (t ++ e) := by
  by_cases h : p.keywords.isEmpty
  · simp [score_keywords, h]
  · simp only [score_keywords, h, Bool.false_eq_true, if_false]
    have hsub : (p.keywords.filter (fun kw => occursIn kw t)).Sublist
        (p.keywords.filter (fun kw => occursIn kw (t ++ e))) :=
      List.monotone_filter_right _ (fun a ha => occursIn_append_left a t e ha)
    have hlen : ((p.keywords.filter (fun kw => occursIn kw t)).length : ℚ)
        ≤ ((p.keywords.filter (fun kw => occursIn kw (t ++ e))).length : ℚ) := by
      exact_mod_cast hsub.length_le
    gcongr

theorem score_company_append (c s : Str) :
    score_company c ≤ score_company (c ++ s) := by
  unfold score_company
  by_cases h : c.isEmpty
  · rw [List.isEmpty_iff] at h
    subst h
    simp only [List.isEmpty_nil, if_pos, List.nil_append]
    split_ifs <;> norm_num
  · have hne : c ≠ [] := fun hc => h (List.isEmpty_iff.mpr hc)
    have h' : (c ++ s).isEmpty = false :=
      List.isEmpty_eq_false.mpr (fun hc => hne (List.append_eq_nil.mp hc).1)
    have hc : c.isEmpty = false := List.isEmpty_eq_false.mpr hne
    simp only [hc, h', Bool.false_eq_true, if_false]
    by_cases hkw : company_keywords.any (fun kw => occursIn kw (lowerStr c)) = true
    · obtain ⟨kw, hkwmem, hkwocc⟩ := List.any_eq_true.mp hkw
      have : company_keywords.any (fun kw => occursIn kw (lowerStr (c ++ s))) = true := by
        refine List.any_eq_true.mpr ⟨kw, hkwmem, ?_⟩
        rw [lowerStr_append]
        exact occursIn_append_left kw (lowerStr c) (lowerStr s) hkwocc
      simp only [hkw, this, if_pos]
      norm_num
    · simp only [hkw, Bool.false_eq_true, if_false]
      split_ifs <;> norm_num

/-!
## Claim C3 — the fit score always lies in [0, 100]
-/

/-- C3: for every posting (missing title/company/location/description/salary
embedded as empty/absent fields) and every profile (the built-in fallback
profile included), `score_job` returns a value in the closed interval
[0, 100]. -/
theorem C3_score_job_in_range (p : Profile) (job : Job) :
    0 ≤ score_job p job ∧ score_job p job ≤ 100 := by
  obtain ⟨t0, t1⟩ := score_title_bounds p job.title
  obtain ⟨s0, s1⟩ := score_skills_bounds p (job_text job)
  obtain ⟨k0, k1⟩ := score_keywords_bounds p (job_text job)
  obtain ⟨l0, l1⟩ := score_location_bounds job.location
  obtain ⟨c0, c1⟩ := score_company_bounds job.company
  have hsal : (0:ℚ) ≤ (if truthy job.salary then 5 else 0) := by split_ifs <;> norm_num
  unfold score_job
  dsimp only
  exact ⟨le_min (by linarith) (by norm_num), min_le_right _ _⟩

/-!
## Claim C8 — monotonicity of the score in skill overlap

The claim as stated — appending an occurrence of a profile skill term to the
posting's free text never decreases `score_job` — fails on the code: the
combined text is `' '.join([title, description, snippet, company])`, so a
multi-word skill whose occurrence straddles the boundary between the
description and the joining space is destroyed when text is appended to the
description, and the skill- and keyword-overlap fractions can drop by more
than the newly matching term adds.  Appending at the end of the *last*
joined field (`company`) extends the combined text on the right, which
preserves every existing substring occurrence, and then no sub-score can
decrease.
-/

/-- Counterexample profile for C8: three skills, one of which (`"xa "`) ends
with a space and one of which (`"a b"`) spans a join boundary. -/
def c8profile : Profile where
  skills := ["xa ", "a b", "c"]
  keywords := ["xa ", "a b", "c"]
  target_roles := []

/-- Counterexample posting for C8: combined text `" xa b "`. -/
def c8job : Job where
  url := ""
  title := ""
  description := "xa"
  snippet := "b"
  company := ""
  location := ""
  salary := none
  ats := ""
  tier := none
  match_score := none

/-- The C8 posting after appending the profile skill `"c"` to its
description (the posting's free text). -/
def c8job' : Job := { c8job with description := c8job.description ++ ("c" : Str) }

/-- C8 counterexample: appending the profile skill term `"c"` to the
posting's description (its free text) — a term that did not occur in the
combined text before and newly matches afterwards, exactly the claim's
premise — strictly decreases `score_job` (from 100/3 to 50/3).  The
combined text moves from `" xa b "` to `" xac b "`: the append destroys
the matches of the skills `"xa "` and `"a b"` that straddled the
description/snippet join, so the matched-skill count drops from 2 to 1
and the skill- and keyword-overlap fractions fall by more than the newly
matching term adds. -/
theorem C8_counterexample :
    ("c" : Str) ∈ c8profile.skills
    ∧ occursIn ("c" : Str) (job_text c8job) = false
    ∧ occursIn ("c" : Str) (job_text c8job') = true
    ∧ (c8profile.skills.filter (fun sk => occursIn sk (job_text c8job))).length = 2
    ∧ (c8profile.skills.filter (fun sk => occursIn sk (job_text c8job'))).length = 1
    ∧ score_job c8profile c8job' < score_job c8profile c8job := by
  refine ⟨by decide, by decide, by decide, by decide, by decide, ?_⟩
  simp +decide [score_job, score_title, score_skills, score_keywords, score_location,
    score_company, truthy, job_text, c8profile, c8job, c8job', lowerStr,
    high_value_skills]
  norm_num

/-- C8 (amended): appending an occurrence of a profile skill term at the end
of the posting's company field — the final component of the combined text
`' '.join([title, description, snippet, company])`, so the combined text is
extended on the right and every existing substring occurrence is preserved —
never decreases `score_job`, and in particular never decreases the skill- and
keyword-overlap sub-scores (the claim's "monotonic in skill overlap").  The
appended term itself needs no side condition beyond being a profile skill:
title, location and salary sub-scores read other fields and are unchanged,
and the skill, keyword and company sub-scores are monotone under rightward
text extension. -/
theorem C8_append_skill_to_final_field_monotone (p : Profile) (job : Job) (s : Str)
    (_hs : s ∈ p.skills) :
    score_job p job ≤ score_job p { job with company := job.company ++ s }
    ∧ score_skills p (job_text job)
      ≤ score_skills p (job_text { job with company := job.company ++ s })
    ∧ score_keywords p (job_text job)
      ≤ score_keywords p (job_text { job with company := job.company ++ s }) := by
  have htext : job_text { job with company := job.company ++ s }
      = job_text job ++ lowerStr s := by
    simp [job_text, lowerStr, List.map_append, List.append_assoc]
  have hsk : score_skills p (job_text job)
      ≤ score_skills p (job_text job ++ lowerStr s) := score_skills_mono p _ _
  have hkw : score_keywords p (job_text job)
      ≤ score_keywords p (job_text job ++ lowerStr s) := score_keywords_mono p _ _
  have hco : score_company job.company ≤ score_company (job.company ++ s) :=
    score_company_append job.company s
  refine ⟨?_, ?_, ?_⟩
  · unfold score_job
    dsimp only
    rw [htext]
    exact min_le_min (by linarith) le_rfl
  · rw [htext]
    exact hsk
  · rw [htext]
    exact hkw

/-- C8 witness: the amended monotonicity theorem applied at the
counterexample profile and posting with the skill `"c"`, yielding both the
aggregate-score and the skill-overlap monotonicity at a concrete input. -/
theorem C8_witness :
    ("c" : Str) ∈ c8profile.skills
    ∧ score_job c8profile c8job
      ≤ score_job c8profile { c8job with company := c8job.company ++ ("c" : Str) }
    ∧ score_skills c8profile (job_text c8job)
      ≤ score_skills c8profile
        (job_text { c8job with company := c8job.company ++ ("c" : Str) }) :=
  ⟨by decide,
   (C8_append_skill_to_final_field_monotone c8profile c8job ("c" : Str) (by decide)).1,
   (C8_append_skill_to_final_field_monotone c8profile c8job ("c" : Str) (by decide)).2.1⟩

/-!
## The ATS classifier (`ats_detector.py`)
-/

/-- A provider entry of `ATSDetector.ATS_PATTERNS` (domains, URL regexes,
content regexes, friction tier, baseline success probability).  Every URL
regex in the catalog is an escaped literal, so in the embedding the patterns
are stored unescaped and `re.search` is substring containment. -/
structure ATSEntry where
  name : Str
  domains : List Str
  url_patterns : List Str
  html_patterns : List Str
  tier : Nat
  success_rate : ℚ

/-- Embedding of `ATSDetector.ATS_PATTERNS` in declaration order (Python dicts preserve
insertion order, and `detect_from_url` iterates in that order). -/
def ATS_PATTERNS : List ATSEntry :=
  [{ name := "jazzhr", domains := ["applytojob.com", "jazzhr.com"],
     url_patterns := ["applytojob.com", "jazzhr.com"],
     html_patterns := ["JazzHR", "jazz-hr"], tier := 1, success_rate := 0.75 },
   { name := "bamboohr", domains := ["bamboohr.com"],
     url_patterns := [".bamboohr.com"],
     html_patterns := ["BambooHR", "bamboo-hr"], tier := 1, success_rate := 0.70 },
   { name := "recruitee", domains := ["recruitee.com"],
     url_patterns := ["recruitee.com"],
     html_patterns := ["recruitee", "Recruitee"], tier := 1, success_rate := 0.75 },
   { name := "manatal", domains := ["manatal.com"],
     url_patterns := ["manatal.com"],
     html_patterns := ["Manatal", "manatal"], tier := 1, success_rate := 0.70 },
   { name := "pinpoint", domains := ["pinpointhq.com"],
     url_patterns := ["pinpointhq.com"],
     html_patterns := ["Pinpoint", "pinpoint-hq"], tier := 1, success_rate := 0.65 },
   { name := "lever", domains := ["lever.co", "jobs.lever.co"],
     url_patterns := ["lever.co", "jobs.lever.co"],
     html_patterns := ["Lever", "lever-portal"], tier := 2, success_rate := 0.55 },
   { name := "greenhouse", domains := ["greenhouse.io", "boards.greenhouse.io"],
     url_patterns := ["greenhouse.io", "boards.greenhouse.io"],
     html_patterns := ["Greenhouse", "greenhouse-portal"], tier := 2, success_rate := 0.60 },
   { name := "ashby", domains := ["ashbyhq.com"],
     url_patterns := ["ashbyhq.com", "jobs.ashbyhq.com"],
     html_patterns := ["Ashby", "ashby-portal"], tier := 2, success_rate := 0.50 },
   { name := "bullhorn", domains := ["bullhornstaffing.com"],
     url_patterns := ["bullhorn"],
     html_patterns := ["Bullhorn", "bullhorn-portal"], tier := 2, success_rate := 0.50 },
   { name := "trakstar", domains := ["trakstar.com"],
     url_patterns := ["trakstar.com", "hire.trakstar"],
     html_patterns := ["Trakstar", "trakstar-hire"], tier := 2, success_rate := 0.55 },
   { name := "workday", domains := ["myworkdayjobs.com"],
     url_patterns := ["myworkdayjobs.com", "workday.com"],
     html_patterns := ["Workday", "workday-portal"], tier := 3, success_rate := 0.35 },
   { name := "icims", domains := ["icims.com"],
     url_patterns := ["icims.com", "careers-icims"],
     html_patterns := ["iCIMS", "icims-portal"], tier := 3, success_rate := 0.30 },
   { name := "taleo", domains := ["taleo.net"],
     url_patterns := ["taleo.net", "oracle.com/taleo"],
     html_patterns := ["Taleo", "taleo-portal", "Oracle Taleo"], tier := 3, success_rate := 0.25 },
   { name := "smartrecruiters", domains := ["smartrecruiters.com"],
     url_patterns := ["smartrecruiters.com", "jobs.smartrecruiters"],
     html_patterns := ["SmartRecruiters", "smartrecruiters-portal"], tier := 3, success_rate := 0.35 },
   { name := "successfactors", domains := ["successfactors.com", "successfactors.eu"],
     url_patterns := ["successfactors.com", "successfactors.eu", "sap.com/successfactors"],
     html_patterns := ["SuccessFactors", "SAP SuccessFactors"], tier := 3, success_rate := 0.30 },
   { name := "jobvite", domains := ["jobvite.com"],
     url_patterns := ["jobvite.com", "jobs.jobvite"],
     html_patterns := ["Jobvite", "jobvite-portal"], tier := 3, success_rate := 0.40 },
   { name := "ukgpro", domains := ["ultipro.com"],
     url_patterns := ["ultipro.com", "ukg.com"],
     html_patterns := ["UKG Pro", "UltiPro"], tier := 3, success_rate := 0.30 },
   { name := "ceridian", domains := ["dayforcehcm.com"],
     url_patterns := ["dayforcehcm.com", "dayforce.com"],
     html_patterns := ["Ceridian", "Dayforce"], tier := 3, success_rate := 0.30 },
   { name := "avature", domains := ["avature.net"],
     url_patterns := ["avature.net", "careers-avature"],
     html_patterns := ["Avature", "avature-portal"], tier := 3, success_rate := 0.35 }]

/-- The host (`netloc`) component of a URL, as `urllib.parse.urlparse` yields
it for the URL shapes this pipeline handles (absolute `scheme://…` URLs,
scheme-relative `//…` URLs, and scheme-only or relative references without
`//`, which have an empty netloc): the text between the first `"//"` and the
next `'/'`, `'?'` or `'#'`. -/
def netloc : Str → Str
  | [] => []
  | '/' :: '/' :: rest => rest.takeWhile (fun c => !(c == '/') && !(c == '?') && !(c == '#'))
  | _ :: rest => netloc rest

/-- The per-entry match test of `ATSDetector.detect_from_url`'s loop body:
a domain substring hit on the lowercased host, or a URL pattern hit on the
lowercased full URL.  (The code checks the two conditions in sequence but
returns the same entry either way.) -/
def entry_matches (e : ATSEntry) (url : Str) : Bool :=
  e.domains.any (fun d => occursIn d (lowerStr (netloc url)))
  || e.url_patterns.any (fun pt => occursIn pt (lowerStr url))

/-- Embedding of `ATSDetector.detect_from_url`: the first catalog entry (in declaration
order) that matches wins; no match yields `('unknown', 3, 0.20)`. -/
def detect_from_url (url : Str) : Str × Nat × ℚ :=
  match ATS_PATTERNS.find? (fun e => entry_matches e url) with
  | some e => (e.name, e.tier, e.success_rate)
  | none => (("unknown" : Str), 3, 0.20)

theorem find?_eq_get_of_take_false {α : Type} (p : α → Bool) :
    ∀ (l : List α) (k : Nat) (hk : k < l.length),
      p (l.get ⟨k, hk⟩) = true →
      (∀ e ∈ l.take k, p e = false) →
      l.find? p = some (l.get ⟨k, hk⟩) := by
  intro l
  induction l with
  | nil => intro k hk; exact absurd hk (by simp)
  | cons a t ih =>
    intro k hk hp htake
    cases k with
    | zero => exact List.find?_cons_of_pos _ hp
    | succ k' =>
      have ha : p a = false := htake a (by simp [List.take_succ_cons])
      rw [List.find?_cons_of_neg _ (by simp [ha])]
      exact ih k' (by simpa using hk) hp
        (fun e he => htake e (by simp [List.take_succ_cons, he]))

/-!
## Claim C4 — URL-host classification

The claim as stated — *every* posting whose parsed host contains a domain of
some catalog entry classifies as that entry — fails on the code: the loop
returns the **first** entry (in declaration order) that matches by domain or
URL pattern, so a host that contains the domains of two entries classifies as
the earlier one, not as the other.  The amended statement adds the missing
priority side condition; the two scenario URLs are unaffected (no earlier
entry matches them) and classify exactly as claimed.
-/

/-- A URL whose host `jazzhr.com.greenhouse.io` contains the domains of two
catalog entries (`jazzhr` and `greenhouse`). -/
def c4url : Str := "https://jazzhr.com.greenhouse.io/x"

/-- The greenhouse scenario URL from the specification. -/
def c4ghurl : Str := "https://boards.greenhouse.io/acme/jobs/1"

/-- The jazzhr scenario URL from the specification. -/
def c4jzurl : Str := "https://acme.applytojob.com/apply/99"

/-- C4 counterexample: the host of `c4url` contains `greenhouse.io`, a domain
of the catalog's `greenhouse` entry, yet `detect_from_url` classifies the URL
as `(jazzhr, 1, 0.75)` — the earlier entry `jazzhr` also matches and wins —
and not as `(greenhouse, 2, 0.60)` as the claim requires. -/
theorem C4_counterexample :
    (ATS_PATTERNS.any (fun e => e.name == ("greenhouse" : Str)
      && e.domains.contains ("greenhouse.io" : Str))) = true
    ∧ occursIn ("greenhouse.io" : Str) (lowerStr (netloc c4url)) = true
    ∧ detect_from_url c4url = (("jazzhr" : Str), 1, 0.75)
    ∧ ¬ detect_from_url c4url = (("greenhouse" : Str), 2, 0.60) := by
  have hjz : detect_from_url c4url = (("jazzhr" : Str), 1, 0.75) := rfl
  refine ⟨by decide, by decide, hjz, ?_⟩
  rw [hjz]
  intro h
  exact absurd (congrArg Prod.fst h) (by decide)

/-- C4 (amended): if the `k`-th catalog entry's domains match the parsed URL
host and no earlier catalog entry matches (by domain or URL pattern), then
`detect_from_url` returns exactly that entry's identity, declared tier and
declared success probability.  In particular the scenario URLs
`https://boards.greenhouse.io/acme/jobs/1` and
`https://acme.applytojob.com/apply/99` classify as `(greenhouse, 2, 0.60)`
and `(jazzhr, 1, 0.75)` respectively (see the witness). -/
theorem C4_host_match_classifies (url : Str) (k : Nat) (hk : k < ATS_PATTERNS.length)
    (hdom : (ATS_PATTERNS.get ⟨k, hk⟩).domains.any
      (fun d => occursIn d (lowerStr (netloc url))) = true)
    (htake : ∀ e ∈ ATS_PATTERNS.take k, entry_matches e url = false) :
    detect_from_url url
      = ((ATS_PATTERNS.get ⟨k, hk⟩).name, (ATS_PATTERNS.get ⟨k, hk⟩).tier,
         (ATS_PATTERNS.get ⟨k, hk⟩).success_rate) := by
  have hmatch : entry_matches (ATS_PATTERNS.get ⟨k, hk⟩) url = true := by
    unfold entry_matches
    rw [hdom]
    rfl
  unfold detect_from_url
  rw [find?_eq_get_of_take_false _ ATS_PATTERNS k hk hmatch htake]

/-- C4 witness: the amended theorem applied at the greenhouse scenario URL
(catalog index 6), which yields exactly the spec's scenario classification;
the jazzhr scenario URL's classification is recorded alongside. -/
theorem C4_witness :
    ((ATS_PATTERNS.get ⟨6, by decide⟩).domains.any
      (fun d => occursIn d (lowerStr (netloc c4ghurl))) = true)
    ∧ (∀ e ∈ ATS_PATTERNS.take 6, entry_matches e c4ghurl = false)
    ∧ detect_from_url c4ghurl = (("greenhouse" : Str), 2, 0.60)
    ∧ detect_from_url c4jzurl = (("jazzhr" : Str), 1, 0.75) :=
  ⟨by decide, by decide,
   C4_host_match_classifies c4ghurl 6 (by decide) (by decide) (by decide), rfl⟩

/-!
## The application tracker (`tracker.py`)

`ApplicationTracker` persists to SQLite.  The embedding models the two tables
the claims concern (`applications`, `status_history`) as row lists inside a
`TrackerState`, together with the AUTOINCREMENT counter (`next_id`, starting
at 1); the `daily_stats` table is never written by the operations under
study.  SQLite enforces the UNIQUE constraint on `job_url` (raising
`IntegrityError`, which `add_application` catches), but it does **not**
enforce the declared FOREIGN KEY on `status_history.application_id`
(foreign-key enforcement is off by default), so `update_status`'s history
insert succeeds even for an unknown id — the embedding mirrors both.
Timestamps (`datetime.now().isoformat()`) are threaded as an opaque `now`
parameter; the defaulted `created_at`/`changed_at` columns are omitted. -/

/-- A row of the `applications` table (the columns `add_application` and
`update_status` write). -/
structure AppRow where
  id : Nat
  job_url : Str
  job_title : Str
  company : Str
  location : Str
  ats : Str
  tier : Option Nat
  match_score : Option ℚ
  status : Str
  applied_at : Option Str
  deriving DecidableEq

/-- A row of the `status_history` table (the columns `update_status`
inserts). -/
structure HistRow where
  application_id : Nat
  old_status : Option Str
  new_status : Str
  notes : Option Str
  deriving DecidableEq

/-- The tracker's persistent state: both tables plus the AUTOINCREMENT
counter for `applications.id`. -/
structure TrackerState where
  applications : List AppRow
  history : List HistRow
  next_id : Nat
  deriving DecidableEq

/-- Embedding of `ApplicationTracker._init_db`: freshly created empty tables; SQLite
AUTOINCREMENT row ids start at 1. -/
def init_db : TrackerState := { applications := [], history := [], next_id := 1 }

/-- Embedding of `ApplicationTracker.get_application_id`: the id of the row with the given
URL, or `None`. -/
def get_application_id (s : TrackerState) (url : Str) : Option Nat :=
  (s.applications.find? (fun r => r.job_url == url)).map (fun r => r.id)

/-- The `applications` row `add_application`'s INSERT writes: the job's
columns, `status = 'pending'`, id from the AUTOINCREMENT counter. -/
def pending_row (s : TrackerState) (job : Job) : AppRow :=
  { id := s.next_id, job_url := job.url, job_title := job.title,
    company := job.company, location := job.location, ats := job.ats,
    tier := job.tier, match_score := job.match_score,
    status := ("pending" : Str), applied_at := none }

/-- Embedding of `ApplicationTracker.add_application`: INSERT a new `pending` row and
return `lastrowid`; on `IntegrityError` (URL already present) return
`get_application_id(url)`.  The Python return type is `int` on the insert
path and `Optional[int]` on the conflict path; the embedding unifies both
as `Option Nat`. -/
def add_application (s : TrackerState) (job : Job) : Option Nat × TrackerState :=
  if s.applications.any (fun r => r.job_url == job.url) then
    (get_application_id s job.url, s)
  else
    (some s.next_id,
     { s with
       applications := s.applications ++ [pending_row s job],
       next_id := s.next_id + 1 })

/-- The `status_history` row `ApplicationTracker.update_status` inserts:
the old status is read first (`None` when no row has the id — the SELECT
`fetchone()` returns nothing), then recorded next to the requested status
and optional note. -/
def transition_row (s : TrackerState) (app_id : Nat) (new_status : Str)
    (notes : Option Str) : HistRow :=
  { application_id := app_id,
    old_status := (s.applications.find? (fun r => r.id == app_id)).map (fun r => r.status),
    new_status := new_status, notes := notes }

/-- Embedding of `ApplicationTracker.update_status`: UPDATE the matching row's `status`
and `applied_at`, INSERT one `status_history` row (`transition_row`), both
committed together.  The method raises nothing and returns no value — in
particular there is no not-found check. -/
def update_status (s : TrackerState) (app_id : Nat) (new_status : Str)
    (notes : Option Str) (now : Str) : TrackerState :=
  { s with
    applications := s.applications.map (fun r =>
      if r.id == app_id then { r with status := new_status, applied_at := some now } else r),
    history := s.history ++ [transition_row s app_id new_status notes] }

/-- The example job record of `tracker.py`'s `main()` (first entry), used as
a concrete witness input. -/
def example_job : Job where
  url := "https://jobs.lever.co/company/123"
  title := "Data Engineer"
  description := ""
  snippet := ""
  company := "TechCorp"
  location := "Remote"
  salary := none
  ats := "lever"
  tier := some 2
  match_score := none

/-!
## Claim C1 — transition with an unknown identity

The claim says `update_status` on an unknown identity fails with a NotFound
hard error and leaves both tables unchanged.  The code is wrong here: the
method performs no existence check and raises nothing — the SELECT yields no
row (so `old_status` is `None`), the UPDATE matches zero rows, and the
history INSERT still fires, committing an orphan `status_history` row whose
`application_id` references no application.  That contradicts the tracker's
own schema (the declared FOREIGN KEY from `status_history.application_id` to
`applications.id`) as well as the specified error taxonomy, so the claim is
recorded as a code bug, witnessed by the following evaluation. -/

/-- C1: evaluating `update_status` at the failing input — identity 999 on a
fresh (empty) tracker — terminates without any error, leaves `applications`
unchanged (empty), and appends exactly one orphan history row with
`old_status = NULL`. -/
theorem C1_unknown_id_appends_orphan_history :
    (update_status init_db 999 ("submitted" : Str) none ("t0" : Str)).applications = []
    ∧ (update_status init_db 999 ("submitted" : Str) none ("t0" : Str)).history
      = [{ application_id := 999, old_status := none,
           new_status := ("submitted" : Str), notes := none }] :=
  ⟨rfl, rfl⟩

/-!
## Claim C2 — idempotent upsert by posting URL
-/

/-- C2: under the storage-layer URL-uniqueness invariant (at most one row per
URL), adding the same posting URL twice returns the same identity both times
(and an identity is returned), the second call leaves the state unchanged,
and exactly one application row carries that URL afterwards. -/
theorem C2_add_application_idempotent (s : TrackerState) (j1 j2 : Job)
    (hurl : j2.url = j1.url)
    (huniq : s.applications.countP (fun r => r.job_url == j1.url) ≤ 1) :
    (add_application (add_application s j1).2 j2).1 = (add_application s j1).1
    ∧ (add_application (add_application s j1).2 j2).2 = (add_application s j1).2
    ∧ ((add_application s j1).1).isSome = true
    ∧ ((add_application s j1).2).applications.countP
        (fun r => r.job_url == j1.url) = 1 := by
  by_cases hany : s.applications.any (fun r => r.job_url == j1.url) = true
  · -- the URL is already present: both calls take the IntegrityError path
    obtain ⟨x, hx, hpx⟩ := List.any_eq_true.mp hany
    have h1 : add_application s j1 = (get_application_id s j1.url, s) := by
      simp [add_application, hany]
    have h2 : add_application s j2 = (get_application_id s j2.url, s) := by
      simp [add_application, hurl, hany]
    have hsome : (get_application_id s j1.url).isSome = true := by
      unfold get_application_id
      rw [Option.isSome_map']
      exact List.find?_isSome.mpr ⟨x, hx, hpx⟩
    have hcount : 0 < s.applications.countP (fun r => r.job_url == j1.url) :=
      List.countP_pos_iff.mpr ⟨x, hx, hpx⟩
    rw [h1]
    refine ⟨?_, ?_, hsome, ?_⟩
    · rw [h2, hurl]
    · rw [h2]
    · dsimp only
      omega
  · -- fresh URL: the first call inserts, the second finds the inserted row
    have hall : ∀ x ∈ s.applications, ¬(x.job_url == j1.url) = true := by
      intro x hx hpx
      exact hany (List.any_eq_true.mpr ⟨x, hx, hpx⟩)
    have hnone : s.applications.find? (fun r => r.job_url == j1.url) = none :=
      List.find?_eq_none.mpr hall
    have hzero : s.applications.countP (fun r => r.job_url == j1.url) = 0 :=
      List.countP_eq_zero.mpr hall
    have hanyF : s.applications.any (fun r => r.job_url == j1.url) = false :=
      Bool.eq_false_iff.mpr hany
    have h1 : add_application s j1
        = (some s.next_id,
           { s with
             applications := s.applications ++ [pending_row s j1],
             next_id := s.next_id + 1 }) := by
      simp [add_application, hanyF]
    have hrow : ((pending_row s j1).job_url == j1.url) = true := beq_self_eq_true _
    rw [h1]
    refine ⟨?_, ?_, rfl, ?_⟩
    · -- same identity on the second call
      simp [add_application, hurl, List.any_append, hanyF, hrow,
        get_application_id, List.find?_append, hnone, List.find?_cons_of_pos _ hrow,
        pending_row]
    · -- the second call is a no-op on the state
      simp [add_application, hurl, List.any_append, hanyF, hrow]
    · simp [List.countP_append, hzero, List.countP_cons, hrow]

/-- C2 witness: the idempotence theorem applied to a fresh tracker and the
example job of `tracker.py`'s `main()`. -/
theorem C2_witness :
    example_job.url = example_job.url
    ∧ init_db.applications.countP (fun r => r.job_url == example_job.url) ≤ 1
    ∧ (add_application (add_application init_db example_job).2 example_job).1
      = (add_application init_db example_job).1
    ∧ (add_application (add_application init_db example_job).2 example_job).2
      = (add_application init_db example_job).2 :=
  ⟨rfl, by decide,
   (C2_add_application_idempotent init_db example_job example_job rfl (by decide)).1,
   (C2_add_application_idempotent init_db example_job example_job rfl (by decide)).2.1⟩

/-!
## Claim C6 — every transition appends one history row and updates the status

As universally stated the claim fails: a call with an identity absent from
`applications` (the C1 defect) appends a history row while updating no
record.  Restricted to identities present in `applications` — the only calls
the tracker's own code paths (`mark_submitted`, `mark_failed`) issue — the
claim holds: one new history row carrying the old and new status, the
targeted row's status set to the requested value, and every other row
untouched, all effected by the same state transition. -/

/-- The tracker state after adding `example_job` to a fresh tracker:
one application row (id 1, status `pending`), no history. -/
def c6state : TrackerState := (add_application init_db example_job).2

/-- C6 counterexample: on `c6state` (whose only application has id 1), a
transition for the unknown identity 42 appends a history row while no
application's status changes — a transition row without the corresponding
current-status update, contradicting the claim's universal atomicity
statement. -/
theorem C6_counterexample :
    (update_status c6state 42 ("submitted" : Str) none ("t1" : Str)).history.length
      = c6state.history.length + 1
    ∧ (update_status c6state 42 ("submitted" : Str) none ("t1" : Str)).applications.all
        (fun r => r.status == ("pending" : Str)) = true
    ∧ c6state.applications.all (fun r => !(r.id == 42)) = true := by
  refine ⟨rfl, by decide, by decide⟩

/-- C6 (amended): for every identity that is present in `applications`
(exactly one row carries it, as the AUTOINCREMENT primary key guarantees),
`update_status` appends exactly one history row — recording that identity,
the old status and the requested status — and in the same state transition
sets the targeted row's status to the requested value while leaving every
other row unchanged. -/
theorem C6_update_status_appends_and_updates (s : TrackerState) (app_id : Nat)
    (st : Str) (note : Option Str) (now : Str)
    (hex : s.applications.countP (fun r => r.id == app_id) = 1) :
    (update_status s app_id st note now).history
      = s.history ++ [transition_row s app_id st note]
    ∧ (update_status s app_id st note now).applications.countP
        (fun r => r.id == app_id && r.status == st) = 1
    ∧ (update_status s app_id st note now).applications.filter
        (fun r => !(r.id == app_id))
      = s.applications.filter (fun r => !(r.id == app_id)) := by
  refine ⟨rfl, ?_, ?_⟩
  · -- exactly one row carries the identity, and it now has the new status
    unfold update_status
    dsimp only
    rw [List.countP_map]
    rw [List.countP_congr (q := fun r => r.id == app_id) ?_]
    · exact hex
    · intro r _
      by_cases h : (r.id == app_id) = true
      · simp [Function.comp, h, beq_self_eq_true]
      · simp [Function.comp, h]
  · -- rows with other identities are untouched
    unfold update_status
    dsimp only
    generalize s.applications = l
    induction l with
    | nil => rfl
    | cons r t ih =>
      simp only [List.map_cons, List.filter_cons]
      simp only [beq_iff_eq] at ih
      by_cases h : r.id = app_id
      · simp [h, ih]
      · simp [h, ih]

/-- C6 witness: the amended theorem applied to `c6state` and its (unique)
application identity 1, transitioning to `submitted`. -/
theorem C6_witness :
    c6state.applications.countP (fun r => r.id == 1) = 1
    ∧ (update_status c6state 1 ("submitted" : Str) none ("t1" : Str)).applications.countP
        (fun r => r.id == 1 && r.status == ("submitted" : Str)) = 1 :=
  ⟨by decide,
   (C6_update_status_appends_and_updates c6state 1 ("submitted" : Str) none
     ("t1" : Str) (by decide)).2.1⟩

/-!
## The tier-1 dispatcher (`automation/tier1_automation.py`)

`Tier1Automation` drives a Playwright browser.  The embedding abstracts the
browser to what the code observes of it: whether navigation succeeds, and
which CSS selector strings find an element on the resulting page.  A
strategy's effect is the ordered list of form interactions it performs plus
its boolean outcome.  The randomized pacing sleeps (`random.uniform(10, 20)`
between attempts, 30 s session break) are events in the batch trace with
their durations abstracted. -/

/-- The resume-data fields the strategies read (`resume.get('name', '')`,
`'email'`, `'phone'`, and `summary.get('tech_first', '')` for the cover
letter). -/
structure Resume where
  name : Str
  email : Str
  phone : Str
  tech_first : Str
  deriving DecidableEq

/-- The page an attempt sees: whether `page.goto` succeeded (its exception is
the caught path of `_apply_to_job`), and the set of selector strings that
find an element (`query_selector` / `wait_for_selector`). -/
structure PageState where
  goto_ok : Bool
  present : List Str
  deriving DecidableEq

/-- Model of `page.query_selector(sel)` / `wait_for_selector(sel)` succeeding. -/
def query (p : PageState) (sel : Str) : Bool := p.present.contains sel

/-- An observable form interaction: filling a field (`_type_human_like`,
final text recorded) or clicking the submit button.  Submission happens only
through `click_submit`. -/
inductive FormAction
  | fill_field (sel : Str) (text : Str)
  | click_submit (sel : Str)
  deriving DecidableEq

def sel_name_exact : Str := "input[name=\"name\"]"

def sel_email_name : Str := "input[name=\"email\"]"

def sel_phone_name : Str := "input[name=\"phone\"]"

def sel_cover : Str := "textarea[name=\"cover_letter\"]"

def sel_submit : Str := "button[type=\"submit\"]"

def sel_first_id : Str := "input[id*=\"first\"]"

def sel_last_id : Str := "input[id*=\"last\"]"

def sel_email_type : Str := "input[type=\"email\"]"

def sel_tel_type : Str := "input[type=\"tel\"]"

/-- The `name_selectors` list of `_fill_generic`. -/
def generic_name_selectors : List Str :=
  ["input[name*=\"name\"]", "input[id*=\"name\"]", "input[placeholder*=\"name\"]"]

/-- The `phone_selectors` list of `_fill_generic`. -/
def generic_phone_selectors : List Str :=
  ["input[type=\"tel\"]", "input[name*=\"phone\"]", "input[id*=\"phone\"]"]

/-- Python `str.split()` for the whitespace-separated names involved
(split on spaces, dropping empty pieces). -/
def words (s : Str) : List Str := (s.splitOn ' ').filter (fun w => !w.isEmpty)

/-- Python `' '.join(...)`. -/
def join_spaces (l : List Str) : Str := List.intercalate (" " : Str) l

/-- Embedding of `Tier1Automation._generate_quick_cover_letter`. -/
def quick_cover_letter (r : Resume) : Str :=
  ("Dear Hiring Manager,\n\n" : Str) ++ r.tech_first
  ++ ("\n\nI am excited to apply for this position and believe my unique combination of technical skills and business experience would be valuable to your team.\n\nThank you for your consideration.\n\nBest regards,\n" : Str)
  ++ r.name

/-- Embedding of `Tier1Automation._fill_jazzhr`: wait for the name field (its absence is
the caught timeout, `False`); type name, email and phone; the file-upload
branch only probes; fill the cover letter when its textarea exists; click
submit and return `True` when the submit button exists, else `False`.
Field interactions after the initial wait are modelled as succeeding —
the exception paths the code's `except` clauses take are navigation
failure and the initial wait timing out. -/
def fill_jazzhr (p : PageState) (r : Resume) : List FormAction × Bool :=
  if !(query p sel_name_exact) then ([], false)
  else
    let base := [FormAction.fill_field sel_name_exact r.name,
                 FormAction.fill_field sel_email_name r.email,
                 FormAction.fill_field sel_phone_name r.phone]
    let cover :=
      if query p sel_cover then [FormAction.fill_field sel_cover (quick_cover_letter r)]
      else []
    if query p sel_submit then (base ++ cover ++ [FormAction.click_submit sel_submit], true)
    else (base ++ cover, false)

/-- Embedding of `Tier1Automation._fill_bamboohr`: wait for the first-name field; split
the name (`name.split()[0]` raising `IndexError` on an empty name is the
caught path); fill first/last name, email and phone; click submit and
return `True` when the submit button exists, else `False`. -/
def fill_bamboohr (p : PageState) (r : Resume) : List FormAction × Bool :=
  if !(query p sel_first_id) then ([], false)
  else
    match words r.name with
    | [] => ([], false)
    | w :: ws =>
      let acts := [FormAction.fill_field sel_first_id w,
                   FormAction.fill_field sel_last_id (join_spaces ws),
                   FormAction.fill_field sel_email_type r.email,
                   FormAction.fill_field sel_tel_type r.phone]
      if query p sel_submit then (acts ++ [FormAction.click_submit sel_submit], true)
      else (acts, false)

/-- Embedding of `Tier1Automation._fill_generic`: probe the common name selectors (the
first present one receives the name), the email input, and the common phone
selectors — then deliberately do **not** submit ("For safety, we don't
auto-submit for generic forms") and return `False` (manual review needed).
Both the normal path and the caught-exception path return `False`. -/
def fill_generic (p : PageState) (r : Resume) : List FormAction × Bool :=
  let name_acts :=
    match generic_name_selectors.find? (fun sel => query p sel) with
    | some sel => [FormAction.fill_field sel r.name]
    | none => []
  let email_acts :=
    if query p sel_email_type then [FormAction.fill_field sel_email_type r.email]
    else []
  let phone_acts :=
    match generic_phone_selectors.find? (fun sel => query p sel) with
    | some sel => [FormAction.fill_field sel r.phone]
    | none => []
  (name_acts ++ email_acts ++ phone_acts, false)

/-- Embedding of `Tier1Automation._fill_recruitee`: delegates to the generic filler. -/
def fill_recruitee (p : PageState) (r : Resume) : List FormAction × Bool :=
  fill_generic p r

/-- Embedding of `Tier1Automation._fill_manatal`: delegates to the generic filler. -/
def fill_manatal (p : PageState) (r : Resume) : List FormAction × Bool :=
  fill_generic p r

/-- Embedding of `Tier1Automation._fill_pinpoint`: delegates to the generic filler. -/
def fill_pinpoint (p : PageState) (r : Resume) : List FormAction × Bool :=
  fill_generic p r

/-- An entry of `self.applications`, the submission log `_apply_to_job`
appends to on success; the `datetime.now()` timestamp column is omitted
(external clock read). -/
structure AppLog where
  job_url : Str
  job_title : Str
  company : Str
  ats : Str
  status : Str
  deriving DecidableEq

/-- Embedding of `Tier1Automation._apply_to_job`: navigate (failure is the caught
exception, `False`), route to the per-provider strategy by
`job.get('ats', 'unknown')` through the `if/elif` chain, and on success
append one `submitted` log entry.  Returns the outcome and the log entries
appended. -/
def apply_to_job (r : Resume) (p : PageState) (job : Job) : Bool × List AppLog :=
  if !p.goto_ok then (false, [])
  else
    let res :=
      if job.ats == ("jazzhr" : Str) then fill_jazzhr p r
      else if job.ats == ("bamboohr" : Str) then fill_bamboohr p r
      else if job.ats == ("recruitee" : Str) then fill_recruitee p r
      else if job.ats == ("manatal" : Str) then fill_manatal p r
      else if job.ats == ("pinpoint" : Str) then fill_pinpoint p r
      else fill_generic p r
    (res.2,
     if res.2 then
       [{ job_url := job.url, job_title := job.title, company := job.company,
          ats := job.ats, status := ("submitted" : Str) }]
     else [])

/-- The observable events of one `apply_to_jobs` batch, in order: a numbered
attempt with its outcome, the randomized inter-attempt delay
(`random.uniform(10, 20)`, duration abstracted), and the 30-second session
break. -/
inductive DEvent
  | attempt (i : Nat) (job : Job) (ok : Bool)
  | delay
  | session_break
  deriving DecidableEq

/-- The `for i, job in enumerate(jobs_to_process, 1)` loop of
`apply_to_jobs`: attempt, then the randomized delay when `i < n`, then the
session break when `i % 10 == 0 and i < n`, where
`n = len(jobs_to_process)`. -/
def apply_loop (r : Resume) (page_of : Job → PageState) :
    List Job → Nat → Nat → List DEvent
  | [], _, _ => []
  | job :: rest, i, n =>
    DEvent.attempt i job (apply_to_job r (page_of job) job).1
      :: ((if i < n then [DEvent.delay] else [])
        ++ (if i % 10 = 0 ∧ i < n then [DEvent.session_break] else [])
        ++ apply_loop r page_of rest (i + 1) n)

/-- Embedding of `Tier1Automation.apply_to_jobs`: filter to tier-1 postings, return
immediately when there are none, process the first `max_apps` of them, and
emit the batch's event trace.  The scoped browser session is abstracted as
`page_of`, the page each posting's navigation yields. -/
def apply_to_jobs (r : Resume) (page_of : Job → PageState) (jobs : List Job)
    (max_apps : Nat) : List DEvent :=
  let tier1 := jobs.filter (fun j => j.tier == some 1)
  if tier1.isEmpty then []
  else apply_loop r page_of (tier1.take max_apps) 1 (tier1.take max_apps).length

/-- Number of attempts in a batch trace. -/
def count_attempts (tr : List DEvent) : Nat :=
  tr.countP (fun e => match e with | DEvent.attempt _ _ _ => true | _ => false)

/-- Number of session breaks (long cooldowns) in a batch trace. -/
def count_breaks (tr : List DEvent) : Nat :=
  tr.countP (fun e => match e with | DEvent.session_break => true | _ => false)

/-- Number of randomized inter-attempt delays in a batch trace. -/
def count_delays (tr : List DEvent) : Nat :=
  tr.countP (fun e => match e with | DEvent.delay => true | _ => false)

/-- The batch's `self.fail_count`: attempts whose outcome is `False`. -/
def count_failures (tr : List DEvent) : Nat :=
  tr.countP (fun e => match e with | DEvent.attempt _ _ false => true | _ => false)

/-!
## Batch-trace lemmas
-/

theorem count_attempts_apply_loop (r : Resume) (page_of : Job → PageState) :
    ∀ (l : List Job) (i n : Nat), count_attempts (apply_loop r page_of l i n) = l.length := by
  intro l
  induction l with
  | nil => intro i n; rfl
  | cons job rest ih =>
    intro i n
    unfold apply_loop count_attempts
    simp only [List.countP_cons, List.countP_append]
    have h1 := ih (i + 1) n
    unfold count_attempts at h1
    split_ifs <;> simp [h1]

theorem apply_loop_attempt_jobs (r : Resume) (page_of : Job → PageState) (q : Job → Bool) :
    ∀ (l : List Job) (i n : Nat), (∀ j ∈ l, q j = true) →
      (apply_loop r page_of l i n).all
        (fun e => match e with
          | DEvent.attempt _ j _ => q j
          | _ => true) = true := by
  intro l
  induction l with
  | nil => intro i n _; rfl
  | cons job rest ih =>
    intro i n hq
    unfold apply_loop
    have h1 : (if i < n then [DEvent.delay] else []).all
        (fun e => match e with | DEvent.attempt _ j _ => q j | _ => true) = true := by
      split_ifs <;> rfl
    have h2 : (if i % 10 = 0 ∧ i < n then [DEvent.session_break] else []).all
        (fun e => match e with | DEvent.attempt _ j _ => q j | _ => true) = true := by
      split_ifs <;> rfl
    simp [List.all_cons, List.all_append, hq job (by simp), h1, h2,
      ih (i + 1) n (fun j hj => hq j (by simp [hj]))]

/-!
## Claim C7 — attempt bound and tier-1-only processing
-/

/-- C7: for every input list and `max_count`, the dispatcher performs at most
`max_count` attempts, and every attempt in the trace is on a posting
classified tier 1 — non-tier-1 postings are filtered out before the loop and
never processed. -/
theorem C7_dispatcher_at_most_max_and_tier1_only (r : Resume)
    (page_of : Job → PageState) (jobs : List Job) (max_apps : Nat) :
    count_attempts (apply_to_jobs r page_of jobs max_apps) ≤ max_apps
    ∧ (apply_to_jobs r page_of jobs max_apps).all
        (fun e => match e with
          | DEvent.attempt _ j _ => j.tier == some 1
          | _ => true) = true := by
  unfold apply_to_jobs
  dsimp only
  split
  · exact ⟨by simp [count_attempts], rfl⟩
  · constructor
    · rw [count_attempts_apply_loop, List.length_take]
      exact min_le_left _ _
    · refine apply_loop_attempt_jobs r page_of _ _ _ _ ?_
      intro j hj
      have := List.mem_of_mem_take hj
      exact (List.mem_filter.mp this).2

/-!
## Claim C9 — the generic fallback fills but never submits
-/

/-- C9: for every page state and resume, the generic fallback strategy
returns a non-success outcome (`False`, manual review needed) and its
interaction list contains no submit click — only field fills. -/
theorem C9_fill_generic_never_submits (p : PageState) (r : Resume) :
    (fill_generic p r).2 = false
    ∧ (fill_generic p r).1.all
        (fun a => match a with
          | FormAction.fill_field _ _ => true
          | FormAction.click_submit _ => false) = true := by
  unfold fill_generic
  dsimp only
  refine ⟨rfl, ?_⟩
  rcases hn : generic_name_selectors.find? (fun sel => query p sel) with _ | sel1 <;>
    rcases hp : generic_phone_selectors.find? (fun sel => query p sel) with _ | sel2 <;>
    by_cases he : query p sel_email_type = true <;>
    simp [hn, hp, he]

/-!
## Claim C10 — recruitee/manatal/pinpoint strategies always fail
-/

/-- C10: for a tier-1 posting whose routed provider is recruitee, manatal or
pinpoint, the dedicated strategy delegates to the generic filler, so the
attempt returns `False`, no `submitted` log entry is appended, and a
one-posting batch records the attempt as a failure. -/
theorem C10_delegating_strategies_always_fail (r : Resume)
    (page_of : Job → PageState) (job : Job)
    (hats : job.ats = ("recruitee" : Str) ∨ job.ats = ("manatal" : Str)
      ∨ job.ats = ("pinpoint" : Str))
    (htier : job.tier = some 1) :
    (apply_to_job r (page_of job) job).1 = false
    ∧ (apply_to_job r (page_of job) job).2 = []
    ∧ count_failures (apply_to_jobs r page_of [job] 1) = 1 := by
  have hfail : (apply_to_job r (page_of job) job).1 = false
      ∧ (apply_to_job r (page_of job) job).2 = [] := by
    unfold apply_to_job
    cases hg : (page_of job).goto_ok
    · simp
    · rcases hats with h | h | h <;>
        simp [h, fill_recruitee, fill_manatal, fill_pinpoint, fill_generic]
  refine ⟨hfail.1, hfail.2, ?_⟩
  unfold apply_to_jobs
  have hfilter : [job].filter (fun j => j.tier == some 1) = [job] := by
    simp [htier]
  rw [hfilter]
  simp only [List.isEmpty_cons, List.take, Bool.false_eq_true, if_false]
  unfold apply_loop count_failures
  rw [hfail.1]
  simp [apply_loop]

/-- C10 witness: a concrete manatal tier-1 posting against a page whose
navigation succeeds and which exposes name/email fields. -/
def c10job : Job where
  url := "https://acme.manatal.com/job/7"
  title := "Data Analyst"
  description := ""
  snippet := ""
  company := "Acme"
  location := "Remote"
  salary := none
  ats := "manatal"
  tier := some 1
  match_score := none

def c10page : PageState where
  goto_ok := true
  present := ["input[name*=\"name\"]", "input[type=\"email\"]"]

def c10resume : Resume where
  name := "Anix Lynch"
  email := "alynch@gozeroshot.dev"
  phone := "253-366-4256"
  tech_first := ""

/-- C10 witness: the theorem applied at the concrete manatal posting. -/
theorem C10_witness :
    (c10job.ats = ("recruitee" : Str) ∨ c10job.ats = ("manatal" : Str)
      ∨ c10job.ats = ("pinpoint" : Str))
    ∧ c10job.tier = some 1
    ∧ (apply_to_job c10resume ((fun _ => c10page) c10job) c10job).1 = false
    ∧ (apply_to_job c10resume ((fun _ => c10page) c10job) c10job).2 = [] :=
  ⟨Or.inr (Or.inl rfl), rfl,
   (C10_delegating_strategies_always_fail c10resume (fun _ => c10page) c10job
     (Or.inr (Or.inl rfl)) rfl).1,
   (C10_delegating_strategies_always_fail c10resume (fun _ => c10page) c10job
     (Or.inr (Or.inl rfl)) rfl).2.1⟩

/-!
## Claim C5 — 15 tier-1 postings, `max_count = 10`

The claim as stated fails on the code: the session break is guarded by
`if i % 10 == 0 and i < len(jobs_to_process)`, and with 15 tier-1 postings
and `max_count = 10` the batch length is 10, so at `i = 10` the guard's
second conjunct is false — the 10th attempt is the batch's last and the
cooldown is skipped.  The dispatcher does perform exactly 10 attempts with
one randomized delay between each consecutive pair (9 delays), but the long
cooldown fires zero times, not once. -/

/-- The trace shape the batch actually produces here: attempts separated by
exactly one randomized delay, no session break, ending on the final
attempt. -/
def delay_separated (r : Resume) (page_of : Job → PageState) :
    List Job → Nat → List DEvent
  | [], _ => []
  | [job], i => [DEvent.attempt i job (apply_to_job r (page_of job) job).1]
  | job :: next :: rest, i =>
    DEvent.attempt i job (apply_to_job r (page_of job) job).1 :: DEvent.delay
      :: delay_separated r page_of (next :: rest) (i + 1)

/-- One-step unfolding of `delay_separated` on a list with at least two
postings. -/
theorem delay_separated_cons₂ (r : Resume) (page_of : Job → PageState)
    (a b : Job) (l : List Job) (i : Nat) :
    delay_separated r page_of (a :: b :: l) i
      = DEvent.attempt i a (apply_to_job r (page_of a) a).1 :: DEvent.delay
        :: delay_separated r page_of (b :: l) (i + 1) := rfl

theorem apply_loop_no_break (r : Resume) (page_of : Job → PageState) :
    ∀ (l : List Job) (i n : Nat), i + l.length = n + 1 →
      (∀ k, i ≤ k → k < n → k % 10 ≠ 0) →
      apply_loop r page_of l i n = delay_separated r page_of l i := by
  intro l
  induction l with
  | nil => intro i n _ _; rfl
  | cons job rest ih =>
    intro i n hlen hmod
    cases rest with
    | nil =>
      have hin : i = n := by simp at hlen; omega
      subst hin
      simp [apply_loop, delay_separated]
    | cons next rest' =>
      have hin : i < n := by simp at hlen; omega
      have hm : ¬ i % 10 = 0 := hmod i le_rfl hin
      have htail := ih (i + 1) n (by simp at hlen ⊢; omega)
        (fun k hk1 hk2 => hmod k (by omega) hk2)
      have hstep : apply_loop r page_of (job :: next :: rest') i n
          = DEvent.attempt i job (apply_to_job r (page_of job) job).1
            :: ((if i < n then [DEvent.delay] else [])
              ++ (if i % 10 = 0 ∧ i < n then [DEvent.session_break] else [])
              ++ apply_loop r page_of (next :: rest') (i + 1) n) := rfl
      rw [hstep, htail, if_pos hin,
        if_neg (fun hc => hm (And.left hc)), delay_separated_cons₂]
      rfl

theorem count_attempts_delay_separated (r : Resume) (page_of : Job → PageState) :
    ∀ (l : List Job) (i : Nat),
      count_attempts (delay_separated r page_of l i) = l.length := by
  intro l
  induction l with
  | nil => intro i; rfl
  | cons job rest ih =>
    intro i
    cases rest with
    | nil => rfl
    | cons next rest' =>
      rw [delay_separated_cons₂]
      unfold count_attempts at ih ⊢
      simp only [List.countP_cons, ih (i + 1)]
      simp

theorem count_delays_delay_separated (r : Resume) (page_of : Job → PageState) :
    ∀ (l : List Job) (i : Nat),
      count_delays (delay_separated r page_of l i) = l.length - 1 := by
  intro l
  induction l with
  | nil => intro i; rfl
  | cons job rest ih =>
    intro i
    cases rest with
    | nil => rfl
    | cons next rest' =>
      rw [delay_separated_cons₂]
      unfold count_delays at ih ⊢
      simp only [List.countP_cons, ih (i + 1)]
      simp only [List.length_cons]
      simp

theorem count_breaks_delay_separated (r : Resume) (page_of : Job → PageState) :
    ∀ (l : List Job) (i : Nat),
      count_breaks (delay_separated r page_of l i) = 0 := by
  intro l
  induction l with
  | nil => intro i; rfl
  | cons job rest ih =>
    intro i
    cases rest with
    | nil => rfl
    | cons next rest' =>
      rw [delay_separated_cons₂]
      unfold count_breaks at ih ⊢
      simp only [List.countP_cons, ih (i + 1)]
      simp

/-- C5 (amended): given 15 tier-1 postings and `max_count = 10`, the
dispatcher performs exactly 10 attempts with exactly one randomized delay
between each pair of consecutive attempts (the trace alternates
attempt/delay and ends on the 10th attempt, so 9 delays) — and the long
cooldown is **not** triggered: the session break's guard
`i % 10 == 0 and i < len(jobs_to_process)` fails at `i = 10` because the
10th attempt is the batch's last, so the break fires zero times (it fires
after a 10th attempt only when an 11th is pending). -/
theorem C5_dispatch_15_tier1_max10 (r : Resume) (page_of : Job → PageState)
    (jobs : List Job) (htier : ∀ j ∈ jobs, j.tier = some 1)
    (hlen : jobs.length = 15) :
    apply_to_jobs r page_of jobs 10 = delay_separated r page_of (jobs.take 10) 1
    ∧ count_attempts (apply_to_jobs r page_of jobs 10) = 10
    ∧ count_delays (apply_to_jobs r page_of jobs 10) = 9
    ∧ count_breaks (apply_to_jobs r page_of jobs 10) = 0 := by
  have hfilter : jobs.filter (fun j => j.tier == some 1) = jobs :=
    List.filter_eq_self.mpr (fun j hj => by simp [htier j hj])
  have hnil : jobs ≠ [] := by
    intro h
    rw [h] at hlen
    simp at hlen
  have htake : (jobs.take 10).length = 10 := by
    rw [List.length_take, hlen]
    decide
  have heq : apply_to_jobs r page_of jobs 10
      = apply_loop r page_of (jobs.take 10) 1 (jobs.take 10).length := by
    unfold apply_to_jobs
    rw [hfilter]
    simp [List.isEmpty_eq_false.mpr hnil]
  have hds : apply_to_jobs r page_of jobs 10
      = delay_separated r page_of (jobs.take 10) 1 := by
    rw [heq, htake]
    exact apply_loop_no_break r page_of (jobs.take 10) 1 10
      (by rw [htake]) (fun k hk1 hk2 => by omega)
  refine ⟨hds, ?_, ?_, ?_⟩
  · rw [hds, count_attempts_delay_separated, htake]
  · rw [hds, count_delays_delay_separated, htake]
  · rw [hds, count_breaks_delay_separated]

/-- A concrete tier-1 recruitee posting for the C5 scenario. -/
def c5job : Job where
  url := "https://acme.recruitee.com/o/data-engineer"
  title := "Data Engineer"
  description := ""
  snippet := ""
  company := "Acme"
  location := "Remote"
  salary := none
  ats := "recruitee"
  tier := some 1
  match_score := none

/-- A page whose navigation succeeds and which exposes no form fields. -/
def c5page : PageState where
  goto_ok := true
  present := []

/-- The dummy resume data of `tier1_automation.py`'s `main()`. -/
def c5resume : Resume where
  name := "Anix Lynch"
  email := "alynch@gozeroshot.dev"
  phone := "253-366-4256"
  tech_first := ""

/-- C5 counterexample: on a concrete batch of 15 tier-1 postings with
`max_count = 10`, the dispatcher performs exactly 10 attempts but the long
cooldown fires zero times — not once after the 10th attempt, as the claim
states. -/
theorem C5_counterexample :
    count_attempts (apply_to_jobs c5resume (fun _ => c5page)
      (List.replicate 15 c5job) 10) = 10
    ∧ count_breaks (apply_to_jobs c5resume (fun _ => c5page)
      (List.replicate 15 c5job) 10) = 0
    ∧ ¬ count_breaks (apply_to_jobs c5resume (fun _ => c5page)
      (List.replicate 15 c5job) 10) = 1 := by
  refine ⟨by decide, by decide, by decide⟩

/-- C5 witness: the amended theorem applied at the concrete batch of 15
tier-1 postings. -/
theorem C5_witness :
    (∀ j ∈ List.replicate 15 c5job, j.tier = some 1)
    ∧ (List.replicate 15 c5job).length = 15
    ∧ count_attempts (apply_to_jobs c5resume (fun _ => c5page)
        (List.replicate 15 c5job) 10) = 10
    ∧ count_delays (apply_to_jobs c5resume (fun _ => c5page)
        (List.replicate 15 c5job) 10) = 9
    ∧ count_breaks (apply_to_jobs c5resume (fun _ => c5page)
        (List.replicate 15 c5job) 10) = 0 :=
  ⟨by decide, by decide,
   (C5_dispatch_15_tier1_max10 c5resume (fun _ => c5page) (List.replicate 15 c5job)
     (by decide) (by decide)).2.1,
   (C5_dispatch_15_tier1_max10 c5resume (fun _ => c5page) (List.replicate 15 c5job)
     (by decide) (by decide)).2.2.1,
   (C5_dispatch_15_tier1_max10 c5resume (fun _ => c5page) (List.replicate 15 c5job)
     (by decide) (by decide)).2.2.2⟩
